import Mathlib

/-!
Shallow embedding of the kernel-TLS offload core of olebeck/goktls
(src/ktls.go, src/ktls_linux.go, src/ktls_cipher_linux.go) and proofs
about it.  Go byte slices are modelled as `List Nat`, machine integers
as `Nat` (or `Int` where the Go code manipulates signed `int64` values
whose sign matters), and the socket/system-call environment as explicit
oracle values threaded through the functions.
-/

namespace GoKtls

/-! ## Constants from src/ktls_cipher_linux.go -/

def kTLS_CIPHER_AES_GCM_128 : Nat := 51
def kTLS_CIPHER_AES_GCM_128_IV_SIZE : Nat := 8
def kTLS_CIPHER_AES_GCM_128_KEY_SIZE : Nat := 16
def kTLS_CIPHER_AES_GCM_128_SALT_SIZE : Nat := 4
def kTLS_CIPHER_AES_GCM_128_REC_SEQ_SIZE : Nat := 8

def kTLS_CIPHER_AES_GCM_256 : Nat := 52
def kTLS_CIPHER_AES_GCM_256_IV_SIZE : Nat := 8
def kTLS_CIPHER_AES_GCM_256_KEY_SIZE : Nat := 32
def kTLS_CIPHER_AES_GCM_256_SALT_SIZE : Nat := 4
def kTLS_CIPHER_AES_GCM_256_REC_SEQ_SIZE : Nat := 8

def kTLS_CIPHER_CHACHA20_POLY1305 : Nat := 54
def kTLS_CIPHER_CHACHA20_POLY1305_IV_SIZE : Nat := 12
def kTLS_CIPHER_CHACHA20_POLY1305_KEY_SIZE : Nat := 32
def kTLS_CIPHER_CHACHA20_POLY1305_SALT_SIZE : Nat := 0
def kTLS_CIPHER_CHACHA20_POLY1305_REC_SEQ_SIZE : Nat := 8

/-- Closed-form wire size of the AES-GCM-128 crypto-info blob
(src/ktls_cipher_linux.go lines 83-84). -/
def kTLSCryptoInfoSize_AES_GCM_128 : Nat :=
  2 + 2 + kTLS_CIPHER_AES_GCM_128_IV_SIZE + kTLS_CIPHER_AES_GCM_128_KEY_SIZE +
    kTLS_CIPHER_AES_GCM_128_SALT_SIZE + kTLS_CIPHER_AES_GCM_128_REC_SEQ_SIZE

/-- Closed-form wire size of the AES-GCM-256 crypto-info blob. -/
def kTLSCryptoInfoSize_AES_GCM_256 : Nat :=
  2 + 2 + kTLS_CIPHER_AES_GCM_256_IV_SIZE + kTLS_CIPHER_AES_GCM_256_KEY_SIZE +
    kTLS_CIPHER_AES_GCM_256_SALT_SIZE + kTLS_CIPHER_AES_GCM_256_REC_SEQ_SIZE

/-- Closed-form wire size of the ChaCha20-Poly1305 crypto-info blob. -/
def kTLSCryptoInfoSize_CHACHA20_POLY1305 : Nat :=
  2 + 2 + kTLS_CIPHER_CHACHA20_POLY1305_IV_SIZE + kTLS_CIPHER_CHACHA20_POLY1305_KEY_SIZE +
    kTLS_CIPHER_CHACHA20_POLY1305_SALT_SIZE + kTLS_CIPHER_CHACHA20_POLY1305_REC_SEQ_SIZE

/-- Modelled from the spec: the TLS protocol version tags `VersionTLS12` and
`VersionTLS13` are declared in the surrounding crypto/tls package, which is not
under src/; they are the standard wire values 0x0303 and 0x0304. -/
def VersionTLS12 : Nat := 0x0303

/-- Modelled from the spec: standard wire value of the TLS 1.3 version tag. -/
def VersionTLS13 : Nat := 0x0304

/-- Constant from src/ktls_linux.go: option selecting the transmit direction. -/
def TLS_TX : Nat := 1

/-- Constant from src/ktls_linux.go: option selecting the receive direction. -/
def TLS_RX : Nat := 2

/-! ## Byte-level model of the crypto-info structs

The Go code fills fixed-size byte arrays with `copy` (which copies
`min (len dst) (len src)` bytes and leaves the zero-initialised tail alone) and
then reinterprets the packed struct as a byte string via `unsafe.Pointer`.
`copyFixed n src` is the resulting `n`-byte array content, and `u16le` is the
little-endian layout of a `uint16` field on the (little-endian) platforms the
code targets. -/

/-- Content of an `n`-byte zero-initialised Go array after `copy(dst[:], src)`. -/
def copyFixed (n : Nat) (src : List Nat) : List Nat :=
  src.take n ++ List.replicate (n - src.length) 0

/-- Little-endian bytes of a `uint16` struct field. -/
def u16le (x : Nat) : List Nat := [x % 256, x / 256 % 256]

/-- Byte layout of `kTLSCryptoInfoAESGCM128` (src/ktls_cipher_linux.go lines
49-55 and 236-250): version, cipher type, iv (bytes of `iv` after the salt
prefix), key, salt (`iv` prefix), record sequence. -/
def wireAES128 (version : Nat) (key iv seq : List Nat) : List Nat :=
  u16le version ++ u16le kTLS_CIPHER_AES_GCM_128 ++
    copyFixed kTLS_CIPHER_AES_GCM_128_IV_SIZE (iv.drop kTLS_CIPHER_AES_GCM_128_SALT_SIZE) ++
    copyFixed kTLS_CIPHER_AES_GCM_128_KEY_SIZE key ++
    copyFixed kTLS_CIPHER_AES_GCM_128_SALT_SIZE (iv.take kTLS_CIPHER_AES_GCM_128_SALT_SIZE) ++
    copyFixed kTLS_CIPHER_AES_GCM_128_REC_SEQ_SIZE seq

/-- Byte layout of `kTLSCryptoInfoAESGCM256` (src/ktls_cipher_linux.go lines
57-63 and 312-326). -/
def wireAES256 (version : Nat) (key iv seq : List Nat) : List Nat :=
  u16le version ++ u16le kTLS_CIPHER_AES_GCM_256 ++
    copyFixed kTLS_CIPHER_AES_GCM_256_IV_SIZE (iv.drop kTLS_CIPHER_AES_GCM_256_SALT_SIZE) ++
    copyFixed kTLS_CIPHER_AES_GCM_256_KEY_SIZE key ++
    copyFixed kTLS_CIPHER_AES_GCM_256_SALT_SIZE (iv.take kTLS_CIPHER_AES_GCM_256_SALT_SIZE) ++
    copyFixed kTLS_CIPHER_AES_GCM_256_REC_SEQ_SIZE seq

/-- Byte layout of `kTLSCryptoInfoCHACHA20POLY1305` (src/ktls_cipher_linux.go
lines 74-80 and 376-387); the salt field is empty. -/
def wireCHACHA20 (version : Nat) (key iv seq : List Nat) : List Nat :=
  u16le version ++ u16le kTLS_CIPHER_CHACHA20_POLY1305 ++
    copyFixed kTLS_CIPHER_CHACHA20_POLY1305_IV_SIZE iv ++
    copyFixed kTLS_CIPHER_CHACHA20_POLY1305_KEY_SIZE key ++
    copyFixed kTLS_CIPHER_CHACHA20_POLY1305_SALT_SIZE [] ++
    copyFixed kTLS_CIPHER_CHACHA20_POLY1305_REC_SEQ_SIZE seq

/-! ## Environment model for the per-direction enable functions

`SockEnv` fixes the outcome of each system call the enable functions can make:
`c.SyscallConn()`, `setsockopt(SOL_TCP, TCP_ULP, "tls")` and
`setsockopt(SOL_TLS, opt, blob)`.  `none` means success, `some e` means the
call fails with errno-like code `e`.  `SockCall` records which socket
configuration calls were actually issued, in order. -/

structure SockEnv where
  syscallConnErr : Option Nat
  ulpBindErr : Option Nat
  cipherSetsockoptErr : Option Nat
deriving DecidableEq

inductive SockCall where
  | ulpBind : SockCall
  | cipherSetsockopt (opt : Nat) (blob : List Nat) : SockCall
deriving DecidableEq

inductive KtlsErr where
  | wrongKeyLength (desired actual : Nat) : KtlsErr
  | wrongIVLength (desired actual : Nat) : KtlsErr
  | wrongSeqLength (desired actual : Nat) : KtlsErr
  | wrongCryptoInfoSize (desired actual : Nat) : KtlsErr
  | sysErr (e : Nat) : KtlsErr
deriving DecidableEq

/-- Return value of an enable function together with the socket configuration
calls it performed. -/
structure EnableResult where
  err : Option KtlsErr
  calls : List SockCall
deriving DecidableEq

/-- The tail of `ktlsEnableAES128GCM` after parameter validation
(src/ktls_cipher_linux.go lines 236-281): build the blob, assert its size,
obtain the raw connection, then inside `rwc.Control` bind the ULP (unless
`skip`) and apply the cipher blob.  Note: in this function (unlike its AES-256
and ChaCha20 siblings) a ULP bind failure does NOT return from the closure; the
code continues and `err0` is overwritten by the cipher `setsockopt` result. -/
def ktlsApplyAES128GCM (env : SockEnv) (version opt : Nat) (skip : Bool)
    (key iv seq : List Nat) : EnableResult :=
  let blob := wireAES128 version key iv seq
  if blob.length ≠ kTLSCryptoInfoSize_AES_GCM_128 then
    ⟨some (.wrongCryptoInfoSize kTLSCryptoInfoSize_AES_GCM_128 blob.length), []⟩
  else
    match env.syscallConnErr with
    | some e => ⟨some (.sysErr e), []⟩
    | none =>
      if skip then
        ⟨Option.map KtlsErr.sysErr env.cipherSetsockoptErr, [.cipherSetsockopt opt blob]⟩
      else
        ⟨Option.map KtlsErr.sysErr env.cipherSetsockoptErr,
          [.ulpBind, .cipherSetsockopt opt blob]⟩

/-- `ktlsEnableAES128GCM` (src/ktls_cipher_linux.go lines 208-282): length
validation exactly as in the source, then the system-call tail. -/
def ktlsEnableAES128GCM (env : SockEnv) (version opt : Nat) (skip : Bool)
    (key iv seq : List Nat) : EnableResult :=
  if key.length ≠ kTLS_CIPHER_AES_GCM_128_KEY_SIZE then
    ⟨some (.wrongKeyLength kTLS_CIPHER_AES_GCM_128_KEY_SIZE key.length), []⟩
  else if version = VersionTLS12 then
    if iv.length ≠ kTLS_CIPHER_AES_GCM_128_SALT_SIZE then
      ⟨some (.wrongIVLength kTLS_CIPHER_AES_GCM_128_SALT_SIZE iv.length), []⟩
    else if seq.length ≠ kTLS_CIPHER_AES_GCM_128_REC_SEQ_SIZE then
      ⟨some (.wrongSeqLength kTLS_CIPHER_AES_GCM_128_REC_SEQ_SIZE seq.length), []⟩
    else ktlsApplyAES128GCM env version opt skip key iv seq
  else
    if iv.length ≠ kTLS_CIPHER_AES_GCM_128_SALT_SIZE + kTLS_CIPHER_AES_GCM_128_IV_SIZE then
      ⟨some (.wrongIVLength
        (kTLS_CIPHER_AES_GCM_128_SALT_SIZE + kTLS_CIPHER_AES_GCM_128_IV_SIZE) iv.length), []⟩
    else if seq.length ≠ kTLS_CIPHER_AES_GCM_128_REC_SEQ_SIZE then
      ⟨some (.wrongSeqLength kTLS_CIPHER_AES_GCM_128_REC_SEQ_SIZE seq.length), []⟩
    else ktlsApplyAES128GCM env version opt skip key iv seq

/-- The tail of `ktlsEnableAES256GCM` after validation (src/ktls_cipher_linux.go
lines 312-359).  Here a ULP bind failure returns from the closure immediately,
so the bind error is propagated and the cipher `setsockopt` is not attempted. -/
def ktlsApplyAES256GCM (env : SockEnv) (version opt : Nat) (skip : Bool)
    (key iv seq : List Nat) : EnableResult :=
  let blob := wireAES256 version key iv seq
  if blob.length ≠ kTLSCryptoInfoSize_AES_GCM_256 then
    ⟨some (.wrongCryptoInfoSize kTLSCryptoInfoSize_AES_GCM_256 blob.length), []⟩
  else
    match env.syscallConnErr with
    | some e => ⟨some (.sysErr e), []⟩
    | none =>
      if skip then
        ⟨Option.map KtlsErr.sysErr env.cipherSetsockoptErr, [.cipherSetsockopt opt blob]⟩
      else
        match env.ulpBindErr with
        | some e => ⟨some (.sysErr e), [.ulpBind]⟩
        | none =>
          ⟨Option.map KtlsErr.sysErr env.cipherSetsockoptErr,
            [.ulpBind, .cipherSetsockopt opt blob]⟩

/-- `ktlsEnableAES256GCM` (src/ktls_cipher_linux.go lines 284-360). -/
def ktlsEnableAES256GCM (env : SockEnv) (version opt : Nat) (skip : Bool)
    (key iv seq : List Nat) : EnableResult :=
  if key.length ≠ kTLS_CIPHER_AES_GCM_256_KEY_SIZE then
    ⟨some (.wrongKeyLength kTLS_CIPHER_AES_GCM_256_KEY_SIZE key.length), []⟩
  else if version = VersionTLS12 then
    if iv.length ≠ kTLS_CIPHER_AES_GCM_256_SALT_SIZE then
      ⟨some (.wrongIVLength kTLS_CIPHER_AES_GCM_256_SALT_SIZE iv.length), []⟩
    else if seq.length ≠ kTLS_CIPHER_AES_GCM_256_REC_SEQ_SIZE then
      ⟨some (.wrongSeqLength kTLS_CIPHER_AES_GCM_256_REC_SEQ_SIZE seq.length), []⟩
    else ktlsApplyAES256GCM env version opt skip key iv seq
  else
    if iv.length ≠ kTLS_CIPHER_AES_GCM_256_SALT_SIZE + kTLS_CIPHER_AES_GCM_256_IV_SIZE then
      ⟨some (.wrongIVLength
        (kTLS_CIPHER_AES_GCM_256_SALT_SIZE + kTLS_CIPHER_AES_GCM_256_IV_SIZE) iv.length), []⟩
    else if seq.length ≠ kTLS_CIPHER_AES_GCM_256_REC_SEQ_SIZE then
      ⟨some (.wrongSeqLength kTLS_CIPHER_AES_GCM_256_REC_SEQ_SIZE seq.length), []⟩
    else ktlsApplyAES256GCM env version opt skip key iv seq

/-- The tail of `ktlsEnableCHACHA20POLY1305` after validation
(src/ktls_cipher_linux.go lines 376-421); like AES-256, a ULP bind failure
returns from the closure immediately. -/
def ktlsApplyCHACHA20POLY1305 (env : SockEnv) (version opt : Nat) (skip : Bool)
    (key iv seq : List Nat) : EnableResult :=
  let blob := wireCHACHA20 version key iv seq
  if blob.length ≠ kTLSCryptoInfoSize_CHACHA20_POLY1305 then
    ⟨some (.wrongCryptoInfoSize kTLSCryptoInfoSize_CHACHA20_POLY1305 blob.length), []⟩
  else
    match env.syscallConnErr with
    | some e => ⟨some (.sysErr e), []⟩
    | none =>
      if skip then
        ⟨Option.map KtlsErr.sysErr env.cipherSetsockoptErr, [.cipherSetsockopt opt blob]⟩
      else
        match env.ulpBindErr with
        | some e => ⟨some (.sysErr e), [.ulpBind]⟩
        | none =>
          ⟨Option.map KtlsErr.sysErr env.cipherSetsockoptErr,
            [.ulpBind, .cipherSetsockopt opt blob]⟩

/-- `ktlsEnableCHACHA20POLY1305` (src/ktls_cipher_linux.go lines 362-421).  The
IV length check is a single comparison against the 12-byte IV size, with no
branch on the protocol version. -/
def ktlsEnableCHACHA20POLY1305 (env : SockEnv) (version opt : Nat) (skip : Bool)
    (key iv seq : List Nat) : EnableResult :=
  if key.length ≠ kTLS_CIPHER_CHACHA20_POLY1305_KEY_SIZE then
    ⟨some (.wrongKeyLength kTLS_CIPHER_CHACHA20_POLY1305_KEY_SIZE key.length), []⟩
  else if iv.length ≠ kTLS_CIPHER_CHACHA20_POLY1305_IV_SIZE then
    ⟨some (.wrongIVLength kTLS_CIPHER_CHACHA20_POLY1305_IV_SIZE iv.length), []⟩
  else if seq.length ≠ kTLS_CIPHER_CHACHA20_POLY1305_REC_SEQ_SIZE then
    ⟨some (.wrongSeqLength kTLS_CIPHER_CHACHA20_POLY1305_REC_SEQ_SIZE seq.length), []⟩
  else ktlsApplyCHACHA20POLY1305 env version opt skip key iv seq

/-- Environment in which every system call succeeds. -/
def envNone : SockEnv := ⟨none, none, none⟩

/-- Environment in which the ULP bind `setsockopt(SOL_TCP, TCP_ULP, "tls")`
fails with errno 22 (EINVAL) and every other system call succeeds. -/
def envULPFail : SockEnv := ⟨none, some 22, none⟩

/-! ## Capability matrix (src/ktls_linux.go lines 33-142)

`capsOfVersion` is the flag block of `init` (lines 103-128): given the parsed
kernel version pair it computes the process-wide support flags.  The earlier
stages of `init` (module detection, policy gate, uname parsing) only decide
whether this block runs at all. -/

structure KTLSCaps where
  tx : Bool
  rx : Bool
  aes128 : Bool
  aes256 : Bool
  chacha : Bool
  tls13tx : Bool
  tls13rx : Bool
  zerocopy : Bool
  nopad : Bool
deriving DecidableEq

/-- The kernel-version threshold block of `init` (src/ktls_linux.go lines
103-128), one field per `kTLSSupport*` flag it can set. -/
def capsOfVersion (major minor : Nat) : KTLSCaps where
  tx := decide ((major = 4 ∧ 13 ≤ minor) ∨ 4 < major)
  aes128 := decide ((major = 4 ∧ 13 ≤ minor) ∨ 4 < major)
  rx := decide ((major = 4 ∧ 17 ≤ minor) ∨ 4 < major)
  aes256 := decide ((major = 5 ∧ 1 ≤ minor) ∨ 5 < major)
  tls13tx := decide ((major = 5 ∧ 1 ≤ minor) ∨ 5 < major)
  chacha := decide ((major = 5 ∧ 11 ≤ minor) ∨ 5 < major)
  zerocopy := decide ((major = 5 ∧ 19 ≤ minor) ∨ 5 < major)
  tls13rx := decide (5 < major)
  nopad := decide (5 < major)

/-- Version `(major, minor)` is at least `(loMaj, loMin)`, compared on major
then minor, bounds inclusive. -/
def verAtLeast (major minor loMaj loMin : Nat) : Prop :=
  loMaj < major ∨ (loMaj = major ∧ loMin ≤ minor)

/-- Pointwise order on capability tables: every granted flag stays granted. -/
def capsLE (a b : KTLSCaps) : Prop :=
  (a.tx = true → b.tx = true) ∧ (a.rx = true → b.rx = true) ∧
  (a.aes128 = true → b.aes128 = true) ∧ (a.aes256 = true → b.aes256 = true) ∧
  (a.chacha = true → b.chacha = true) ∧ (a.tls13tx = true → b.tls13tx = true) ∧
  (a.tls13rx = true → b.tls13rx = true) ∧ (a.zerocopy = true → b.zerocopy = true) ∧
  (a.nopad = true → b.nopad = true)

/-! ## Record-type read classification (src/ktls_linux.go lines 452-471) -/

/-- Modelled from the spec: `recordTypeAlert` is declared in the surrounding
crypto/tls package, not under src/; it is the standard TLS record type 21. -/
def recordTypeAlert : Nat := 21

/-- Modelled from the spec: standard TLS record type 23 (application data). -/
def recordTypeApplicationData : Nat := 23

/-- Modelled from the spec: standard TLS alert code 0 (close notify), declared
in the surrounding crypto/tls package. -/
def alertCloseNotify : Nat := 0

/-- Error component of the `(int, error)` pair returned by
`ktlsReadDataFromRecord`. -/
inductive ReadErr where
  | ioEOF : ReadErr
  | alertTooShort : ReadErr
  | unsupportedAlert (b0 : Nat) : ReadErr
  | unsupportedRecordType (t : Nat) : ReadErr
  | readFail (e : Nat) : ReadErr
deriving DecidableEq

/-- `ktlsReadDataFromRecord` (src/ktls_linux.go lines 452-471), with the
underlying `ktlsReadRecord` result supplied as `(typ, n, rerr)` and the buffer
contents after that read as `b`.  The function never writes to the buffer;
it only classifies the record and returns the `(int, error)` pair. -/
def ktlsReadDataFromRecord (typ n : Nat) (rerr : Option Nat) (b : List Nat) :
    Nat × Option ReadErr :=
  match rerr with
  | some e => (n, some (.readFail e))
  | none =>
    if typ = recordTypeAlert then
      if n < 2 then (0, some .alertTooShort)
      else if b.getD 1 0 = alertCloseNotify then (0, some .ioEOF)
      else (0, some (.unsupportedAlert (b.getD 0 0)))
    else if typ = recordTypeApplicationData then (n, none)
    else (0, some (.unsupportedRecordType typ))

/-! ## Offload activation dispatch (src/ktls_linux.go lines 338-384) -/

/-- Modelled from the spec: cipher-suite identifiers are declared in the
surrounding crypto/tls package, not under src/; the values are the standard
IANA code points for the suites the switch in `enableKernelTLS` names. -/
def TLS_RSA_WITH_AES_128_GCM_SHA256 : Nat := 0x009c

/-- Modelled from the spec: IANA code point of the named TLS 1.2 suite. -/
def TLS_RSA_WITH_AES_256_GCM_SHA384 : Nat := 0x009d

/-- Modelled from the spec: IANA code point of the named TLS 1.2 suite. -/
def TLS_ECDHE_ECDSA_WITH_AES_128_GCM_SHA256 : Nat := 0xc02b

/-- Modelled from the spec: IANA code point of the named TLS 1.2 suite. -/
def TLS_ECDHE_ECDSA_WITH_AES_256_GCM_SHA384 : Nat := 0xc02c

/-- Modelled from the spec: IANA code point of the named TLS 1.2 suite. -/
def TLS_ECDHE_RSA_WITH_AES_128_GCM_SHA256 : Nat := 0xc02f

/-- Modelled from the spec: IANA code point of the named TLS 1.2 suite. -/
def TLS_ECDHE_RSA_WITH_AES_256_GCM_SHA384 : Nat := 0xc030

/-- Modelled from the spec: IANA code point of the named TLS 1.2 suite. -/
def TLS_ECDHE_RSA_WITH_CHACHA20_POLY1305_SHA256 : Nat := 0xcca8

/-- Modelled from the spec: IANA code point of the named TLS 1.2 suite. -/
def TLS_ECDHE_ECDSA_WITH_CHACHA20_POLY1305_SHA256 : Nat := 0xcca9

/-- Modelled from the spec: IANA code point of the named TLS 1.3 suite. -/
def TLS_AES_128_GCM_SHA256 : Nat := 0x1301

/-- Modelled from the spec: IANA code point of the named TLS 1.3 suite. -/
def TLS_AES_256_GCM_SHA384 : Nat := 0x1302

/-- Modelled from the spec: IANA code point of the named TLS 1.3 suite. -/
def TLS_CHACHA20_POLY1305_SHA256 : Nat := 0x1303

/-- What `enableKernelTLS` decides to do for a cipher-suite identifier:
`noop` is an immediate `return nil` with no offload configuration attempted;
the other constructors record which cipher-family enable path is invoked and
with which protocol version tag. -/
inductive ActivationAction where
  | noop : ActivationAction
  | enableAES128 (version : Nat) : ActivationAction
  | enableAES256 (version : Nat) : ActivationAction
  | enableChaCha (version : Nat) : ActivationAction
deriving DecidableEq

/-- The dispatch of `enableKernelTLS` (src/ktls_linux.go lines 338-384):
the global `kTLSSupport` gate, then the fixed cipher-suite switch with its
capability checks.  The actual per-direction enabling it delegates to is
modelled separately by the `ktlsEnable*` functions. -/
def enableKernelTLS (support : Bool) (caps : KTLSCaps) (cipherSuiteID : Nat) :
    ActivationAction :=
  if support = false then .noop
  else if cipherSuiteID = TLS_ECDHE_RSA_WITH_AES_128_GCM_SHA256 ∨
      cipherSuiteID = TLS_ECDHE_ECDSA_WITH_AES_128_GCM_SHA256 ∨
      cipherSuiteID = TLS_RSA_WITH_AES_128_GCM_SHA256 then
    if caps.aes128 = false then .noop else .enableAES128 VersionTLS12
  else if cipherSuiteID = TLS_ECDHE_RSA_WITH_AES_256_GCM_SHA384 ∨
      cipherSuiteID = TLS_ECDHE_ECDSA_WITH_AES_256_GCM_SHA384 ∨
      cipherSuiteID = TLS_RSA_WITH_AES_256_GCM_SHA384 then
    if caps.aes256 = false then .noop else .enableAES256 VersionTLS12
  else if cipherSuiteID = TLS_ECDHE_RSA_WITH_CHACHA20_POLY1305_SHA256 ∨
      cipherSuiteID = TLS_ECDHE_ECDSA_WITH_CHACHA20_POLY1305_SHA256 then
    if caps.chacha = false then .noop else .enableChaCha VersionTLS12
  else if cipherSuiteID = TLS_AES_128_GCM_SHA256 then
    if caps.aes128 = false ∨ caps.tls13tx = false then .noop
    else .enableAES128 VersionTLS13
  else if cipherSuiteID = TLS_AES_256_GCM_SHA384 then
    if caps.aes256 = false ∨ caps.tls13tx = false then .noop
    else .enableAES256 VersionTLS13
  else if cipherSuiteID = TLS_CHACHA20_POLY1305_SHA256 then
    if caps.chacha = false ∨ caps.tls13tx = false then .noop
    else .enableChaCha VersionTLS13
  else .noop

/-- The cipher-suite identifiers the switch in `enableKernelTLS` names, in
source order. -/
def recognizedSuites : List Nat :=
  [TLS_ECDHE_RSA_WITH_AES_128_GCM_SHA256, TLS_ECDHE_ECDSA_WITH_AES_128_GCM_SHA256,
   TLS_RSA_WITH_AES_128_GCM_SHA256, TLS_ECDHE_RSA_WITH_AES_256_GCM_SHA384,
   TLS_ECDHE_ECDSA_WITH_AES_256_GCM_SHA384, TLS_RSA_WITH_AES_256_GCM_SHA384,
   TLS_ECDHE_RSA_WITH_CHACHA20_POLY1305_SHA256,
   TLS_ECDHE_ECDSA_WITH_CHACHA20_POLY1305_SHA256,
   TLS_AES_128_GCM_SHA256, TLS_AES_256_GCM_SHA384, TLS_CHACHA20_POLY1305_SHA256]

/-- Capability table with every flag granted. -/
def capsAll : KTLSCaps := ⟨true, true, true, true, true, true, true, true, true⟩

/-! ## Splice bridge (src/ktls_linux.go lines 208-286)

`spliceToFile` pumps bytes socket → pipe → file.  The socket side is the raw
`unix.Splice` wrapper, which on failure returns `n = -1` together with the
errno (the Go assembly stub stores `-1` in the result register on error), and
the code runs `remain -= n; written += n` BEFORE checking for `EAGAIN`.
`remain` and `written` are therefore modelled as `Int`.

Environment model: `avail` is the socket data currently ready; when a splice is
attempted with no data ready the next `SpliceEv` decides what happens —
`arrive bytes` means the splice returns `EAGAIN` (`n = -1`), the closure
returns `false`, and the connection becomes readable again with `bytes`
available; `fail e` means the splice fails with a non-`EAGAIN` errno `e`
(`n = -1`).  When the events are exhausted while more data is needed the
operation blocks forever, modelled as `none`.  The file-ward splice caps come
from `ws`: each pipe→file splice moves at most the head of `ws` bytes (an
exhausted `ws` means the splice moves everything asked of it). -/

def maxSpliceSize : Nat := 4 <<< 20

/-- One outcome of a socket→pipe splice attempted while no data is ready. -/
inductive SpliceEv where
  | arrive (bytes : List Nat) : SpliceEv
  | fail (e : Nat) : SpliceEv
deriving DecidableEq

/-- The `bump` retry loop moving one already-spliced chunk from the pipe into
the file (src/ktls_linux.go lines 260-272): splice up to `n` bytes, and if
fewer than `n` were moved re-issue the splice for the remaining bytes of the
same chunk.  `fuel` bounds the unbounded `goto` loop; the caller passes enough
for any schedule of positive caps.  Returns the remaining pipe content, the
new file content and the remaining cap schedule. -/
def drainToFile : Nat → Nat → List Nat → List Nat → List Nat →
    Option (List Nat × List Nat × List Nat)
  | 0, _, _, _, _ => none
  | fuel + 1, n, pipe, file, ws =>
    let cap := match ws with | [] => n | c :: _ => c
    let m := min (min n pipe.length) cap
    if m < n then drainToFile fuel (n - m) (pipe.drop m) (file ++ pipe.take m) ws.tail
    else some (pipe.drop n, file ++ pipe.take n, ws.tail)

/-- The main loop of `spliceToFile` (src/ktls_linux.go lines 237-281).
Mirrors the source exactly, including the `n = -1` accounting on the
`EAGAIN`/error paths: `remain -= n; written += n` runs before the `EAGAIN`
check, so a would-block adds one to `remain` and subtracts one from `written`.
Returns `(written, file contents, error)` when the loop exits, or `none` when
it blocks forever waiting for socket data that never comes. -/
def spliceRun : Nat → Int → List Nat → List SpliceEv → List Nat → List Nat →
    List Nat → Int → Option (Int × List Nat × Option Nat)
  | 0, _, _, _, _, _, _, _ => none
  | fuel + 1, remain, avail, events, ws, pipe, file, written =>
    let n : Int := min (maxSpliceSize : Int) remain
    if 0 < n ∧ avail = [] then
      match events with
      | [] => none
      | .fail e :: _ => some (written - 1, file, some e)
      | .arrive bytes :: rest =>
        spliceRun fuel (remain + 1) bytes rest ws pipe file (written - 1)
    else
      let moved := avail.take n.toNat
      match drainToFile (moved.length + 1) moved.length (pipe ++ moved) file ws with
      | none => none
      | some (pipe', file', ws') =>
        if remain - moved.length ≤ 0 then some (written + moved.length, file', none)
        else
          spliceRun fuel (remain - moved.length) (avail.drop n.toNat) events ws'
            pipe' file' (written + moved.length)

/-! ## Mapped-buffer fallback (src/ktls_linux.go lines 153-206)

`writeToFile` seeks, stats, extends the file to `offset + remain` when needed,
maps it, and reads from the connection into successive windows of the mapped
range `[offset, offset+remain)`.  The pure file is a `List Nat`; `Seek`,
`Stat`, `Truncate` and `Mmap` cannot fail on it.  One `c.Read` call is one
`ConnRead`: either it delivers bytes (at most the current window; within this
repository every error return of `Conn.Read`'s kTLS path carries `n = 0`, see
`ktlsReadRecord`, so an erroring read delivers no bytes) or it fails. -/

def maxBufferSize : Nat := 4 * 1024 * 1024

/-- Result of one `c.Read` call in the mapped-buffer loop. -/
inductive ConnRead where
  | data (bytes : List Nat) : ConnRead
  | fail (e : Nat) : ConnRead
deriving DecidableEq

/-- Overwrite `d.length` bytes of `file` starting at position `pos` (the effect
of `c.Read` filling a window of the mapped region). -/
def writeAt (file : List Nat) (pos : Nat) (d : List Nat) : List Nat :=
  file.take pos ++ d ++ file.drop (pos + d.length)

/-- The `f.Truncate(offset + remain)` step guarded by
`offset+remain > fi.Size()` (src/ktls_linux.go lines 165-171); extending a file
with `Truncate` appends zero bytes. -/
def extendFile (file : List Nat) (offset r : Nat) : List Nat :=
  if file.length < offset + r then file ++ List.replicate (offset + r - file.length) 0
  else file

/-- The read loop of `writeToFile` (src/ktls_linux.go lines 188-204): cap the
window end at `remain`, read into `bytes[start:endPos)`, return
`(start + n, err)` on a read error, advance `start` and `endPos` otherwise,
and stop with `(remain, nil)` once `start ≥ remain`.  Each recursion consumes
one `ConnRead`; exhausting them models blocking forever (`none`). -/
def wfLoop : List ConnRead → Nat → Nat → Nat → Nat → List Nat →
    Option (Int × Option Nat × List Nat)
  | [], _, _, _, _, _ => none
  | .fail e :: _, start, _, _, _, file => some ((start : Int), some e, file)
  | .data bs :: rest, start, endPos, r, offset, file =>
    let e := min endPos r
    let d := bs.take (e - start)
    let file' := writeAt file (offset + start) d
    if r ≤ start + d.length then some ((r : Int), none, file')
    else wfLoop rest (start + d.length) (e + d.length) r offset file'

/-- `writeToFile` (src/ktls_linux.go lines 153-206): returns
`(written, error, handled, file contents)`. -/
def writeToFile (file : List Nat) (offset : Nat) (remain : Int)
    (reads : List ConnRead) : Option (Int × Option Nat × Bool × List Nat) :=
  if remain ≤ 0 then some (0, none, false, file)
  else
    match wfLoop reads 0 maxBufferSize remain.toNat offset
        (extendFile file offset remain.toNat) with
    | none => none
    | some (w, oe, f) => some (w, oe, true, f)

/-! ## Helper lemmas -/

theorem copyFixed_length (n : Nat) (src : List Nat) : (copyFixed n src).length = n := by
  simp only [copyFixed, List.length_append, List.length_take, List.length_replicate]
  omega

theorem u16le_length (x : Nat) : (u16le x).length = 2 := rfl

theorem wireAES128_length (v : Nat) (key iv seq : List Nat) :
    (wireAES128 v key iv seq).length = kTLSCryptoInfoSize_AES_GCM_128 := by
  simp [wireAES128, copyFixed_length, u16le_length, kTLSCryptoInfoSize_AES_GCM_128,
    kTLS_CIPHER_AES_GCM_128_IV_SIZE, kTLS_CIPHER_AES_GCM_128_KEY_SIZE,
    kTLS_CIPHER_AES_GCM_128_SALT_SIZE, kTLS_CIPHER_AES_GCM_128_REC_SEQ_SIZE]

theorem wireAES256_length (v : Nat) (key iv seq : List Nat) :
    (wireAES256 v key iv seq).length = kTLSCryptoInfoSize_AES_GCM_256 := by
  simp [wireAES256, copyFixed_length, u16le_length, kTLSCryptoInfoSize_AES_GCM_256,
    kTLS_CIPHER_AES_GCM_256_IV_SIZE, kTLS_CIPHER_AES_GCM_256_KEY_SIZE,
    kTLS_CIPHER_AES_GCM_256_SALT_SIZE, kTLS_CIPHER_AES_GCM_256_REC_SEQ_SIZE]

theorem wireCHACHA20_length (v : Nat) (key iv seq : List Nat) :
    (wireCHACHA20 v key iv seq).length = kTLSCryptoInfoSize_CHACHA20_POLY1305 := by
  simp [wireCHACHA20, copyFixed_length, u16le_length, kTLSCryptoInfoSize_CHACHA20_POLY1305,
    kTLS_CIPHER_CHACHA20_POLY1305_IV_SIZE, kTLS_CIPHER_CHACHA20_POLY1305_KEY_SIZE,
    kTLS_CIPHER_CHACHA20_POLY1305_SALT_SIZE, kTLS_CIPHER_CHACHA20_POLY1305_REC_SEQ_SIZE]

/-- The salt field of the AES-GCM-128 blob sits at byte offset
`2 + 2 + IV_SIZE + KEY_SIZE = 28` and holds the first `SALT_SIZE = 4` bytes of
the supplied IV. -/
theorem wireAES128_salt (v : Nat) (key iv seq : List Nat) :
    ((wireAES128 v key iv seq).drop 28).take 4 =
      copyFixed kTLS_CIPHER_AES_GCM_128_SALT_SIZE
        (iv.take kTLS_CIPHER_AES_GCM_128_SALT_SIZE) := by
  unfold wireAES128
  rw [List.append_assoc, List.drop_left', List.take_left']
  · exact copyFixed_length _ _
  · simp [copyFixed_length, u16le_length, kTLS_CIPHER_AES_GCM_128_IV_SIZE,
      kTLS_CIPHER_AES_GCM_128_KEY_SIZE]

/-- The salt field of the AES-GCM-256 blob sits at byte offset
`2 + 2 + IV_SIZE + KEY_SIZE = 44` and holds the first `SALT_SIZE = 4` bytes of
the supplied IV. -/
theorem wireAES256_salt (v : Nat) (key iv seq : List Nat) :
    ((wireAES256 v key iv seq).drop 44).take 4 =
      copyFixed kTLS_CIPHER_AES_GCM_256_SALT_SIZE
        (iv.take kTLS_CIPHER_AES_GCM_256_SALT_SIZE) := by
  unfold wireAES256
  rw [List.append_assoc, List.drop_left', List.take_left']
  · exact copyFixed_length _ _
  · simp [copyFixed_length, u16le_length, kTLS_CIPHER_AES_GCM_256_IV_SIZE,
      kTLS_CIPHER_AES_GCM_256_KEY_SIZE]

theorem writeAt_nil (f : List Nat) (p : Nat) : writeAt f p [] = f := by
  simp [writeAt]

theorem writeAt_length (f : List Nat) (p : Nat) (d : List Nat)
    (h : p + d.length ≤ f.length) : (writeAt f p d).length = f.length := by
  simp only [writeAt, List.length_append, List.length_take, List.length_drop]
  omega

/-- Two consecutive window writes are one contiguous write. -/
theorem writeAt_append (f : List Nat) (p : Nat) (d₁ d₂ : List Nat)
    (h : p + d₁.length + d₂.length ≤ f.length) :
    writeAt (writeAt f p d₁) (p + d₁.length) d₂ = writeAt f p (d₁ ++ d₂) := by
  have hp : p ≤ f.length := by omega
  have hl : (f.take p ++ d₁).length = p + d₁.length := by
    simp only [List.length_append, List.length_take]
    omega
  have htake : (writeAt f p d₁).take (p + d₁.length) = f.take p ++ d₁ := by
    unfold writeAt
    rw [List.append_assoc, ← List.append_assoc]
    exact List.take_left' hl
  have hdrop : (writeAt f p d₁).drop (p + d₁.length + d₂.length) =
      f.drop (p + d₁.length + d₂.length) := by
    unfold writeAt
    rw [List.append_assoc, ← List.append_assoc, List.drop_append_eq_append_drop,
      List.drop_of_length_le (by omega), List.drop_drop, hl]
    simp only [List.nil_append]
    congr 1
    omega
  calc writeAt (writeAt f p d₁) (p + d₁.length) d₂
      = (writeAt f p d₁).take (p + d₁.length) ++ d₂ ++
          (writeAt f p d₁).drop (p + d₁.length + d₂.length) := rfl
    _ = (f.take p ++ d₁) ++ d₂ ++ f.drop (p + d₁.length + d₂.length) := by
          rw [htake, hdrop]
    _ = writeAt f p (d₁ ++ d₂) := by
          unfold writeAt
          simp only [List.append_assoc, List.length_append, Nat.add_assoc]

/-- Invariant of the mapped-buffer read loop: a completed run wrote one
contiguous block of bytes at `offset + start`; it ends either with the full
`r - start` remaining bytes written and `(r, nil)` returned, or with the error
of a failing read, `start ≤ st < r` bytes of total progress and `(st, err)`
returned. -/
theorem wfLoop_spec (reads : List ConnRead) :
    ∀ (start endPos r offset : Nat) (file : List Nat) (w : Int)
      (oe : Option Nat) (fF : List Nat),
      offset + r ≤ file.length → start < r →
      wfLoop reads start endPos r offset file = some (w, oe, fF) →
      ∃ (st : Nat) (ds : List Nat), start ≤ st ∧ st ≤ r ∧ ds.length = st - start ∧
        fF = writeAt file (offset + start) ds ∧
        ((oe = none ∧ st = r ∧ w = (r : Int)) ∨
         (∃ e, oe = some e ∧ st < r ∧ w = (st : Int))) := by
  induction reads with
  | nil =>
    intro start endPos r offset file w oe fF hlen hsr h
    simp [wfLoop] at h
  | cons rd rest ih =>
    intro start endPos r offset file w oe fF hlen hsr h
    cases rd with
    | fail e =>
      simp only [wfLoop, Option.some.injEq, Prod.mk.injEq] at h
      obtain ⟨hw, hoe, hf⟩ := h
      exact ⟨start, [], le_refl _, le_of_lt hsr, by simp,
        by rw [← hf, writeAt_nil], Or.inr ⟨e, hoe.symm, hsr, hw.symm⟩⟩
    | data bs =>
      simp only [wfLoop] at h
      have hwin : (bs.take (min endPos r - start)).length ≤ r - start := by
        simp only [List.length_take]
        omega
      by_cases hdone : r ≤ start + (bs.take (min endPos r - start)).length
      · rw [if_pos hdone] at h
        simp only [Option.some.injEq, Prod.mk.injEq] at h
        obtain ⟨hw, hoe, hf⟩ := h
        refine ⟨r, bs.take (min endPos r - start), le_of_lt hsr, le_refl _, by omega,
          hf.symm, Or.inl ⟨hoe.symm, rfl, hw.symm⟩⟩
      · rw [if_neg hdone] at h
        have hlen' : offset + r ≤
            (writeAt file (offset + start) (bs.take (min endPos r - start))).length := by
          rw [writeAt_length _ _ _ (by omega)]
          exact hlen
        obtain ⟨st, ds, h1, h2, h3, h4, h5⟩ :=
          ih (start + (bs.take (min endPos r - start)).length)
            (min endPos r + (bs.take (min endPos r - start)).length) r offset
            (writeAt file (offset + start) (bs.take (min endPos r - start)))
            w oe fF hlen' (by omega) h
        refine ⟨st, bs.take (min endPos r - start) ++ ds, by omega, h2, ?_, ?_, h5⟩
        · simp only [List.length_append, h3]
          omega
        · rw [h4, ← writeAt_append file (offset + start) _ ds (by omega)]
          congr 1
          omega

/-- C7: the mapped-buffer fallback, called with `remain > 0`, first extends
the file to length `max size (offset + remain)` — it never truncates it below
either the old size or `offset + remain` — and every completed run leaves the
file at least `offset + remain` bytes long.  On success it returns exactly
`remain` and has overwritten exactly the `remain` bytes at `offset`; when a
socket read fails mid-transfer it returns `(st, err)` where `st < remain` is
exactly the number of bytes written into the mapped range starting at
`offset` (the file is the extended file with one contiguous `st`-byte block
written there). -/
theorem spec_c7 (file : List Nat) (offset : Nat) (remain : Int)
    (reads : List ConnRead) (h : 0 < remain) :
    (extendFile file offset remain.toNat).length =
      max file.length (offset + remain.toNat) ∧
    (∀ (w : Int) (oe : Option Nat) (fF : List Nat),
      writeToFile file offset remain reads = some (w, oe, true, fF) →
      offset + remain.toNat ≤ fF.length ∧
      (oe = none → w = remain ∧ ∃ ds : List Nat, ds.length = remain.toNat ∧
        fF = writeAt (extendFile file offset remain.toNat) offset ds) ∧
      (∀ e, oe = some e → ∃ (st : Nat) (ds : List Nat), w = (st : Int) ∧
        (st : Int) < remain ∧ ds.length = st ∧
        fF = writeAt (extendFile file offset remain.toNat) offset ds)) := by
  have hext : (extendFile file offset remain.toNat).length =
      max file.length (offset + remain.toNat) := by
    unfold extendFile
    split <;> simp <;> omega
  refine ⟨hext, ?_⟩
  intro w oe fF hw
  have hr0 : ¬ remain ≤ 0 := by omega
  have hrn : 0 < remain.toNat := by omega
  have hlen : offset + remain.toNat ≤ (extendFile file offset remain.toNat).length := by
    omega
  simp only [writeToFile, if_neg hr0] at hw
  cases hloop : wfLoop reads 0 maxBufferSize remain.toNat offset
      (extendFile file offset remain.toNat) with
  | none => rw [hloop] at hw; simp at hw
  | some res =>
    obtain ⟨w', oe', f'⟩ := res
    rw [hloop] at hw
    simp only [Option.some.injEq, Prod.mk.injEq] at hw
    obtain ⟨hw1, hw2, _, hw3⟩ := hw
    obtain ⟨st, ds, h1, h2, h3, h4, h5⟩ :=
      wfLoop_spec reads 0 maxBufferSize remain.toNat offset
        (extendFile file offset remain.toNat) w' oe' f' hlen hrn hloop
    have hfl : fF.length = (extendFile file offset remain.toNat).length := by
      rw [← hw3, h4, writeAt_length _ _ _ (by omega)]
    refine ⟨by omega, ?_, ?_⟩
    · intro hoe
      rcases h5 with ⟨_, hst, hwr⟩ | ⟨e, he, _, _⟩
      · subst hst
        refine ⟨?_, ds, by omega, ?_⟩
        · rw [← hw1, hwr, Int.toNat_of_nonneg (by omega)]
        · rw [← hw3, h4]
          simp
      · rw [← hw2] at hoe
        rw [he] at hoe
        cases hoe
    · intro e hoe
      rcases h5 with ⟨hn, _, _⟩ | ⟨e', he, hlt, hwr⟩
      · rw [← hw2, hn] at hoe
        cases hoe
      · refine ⟨st, ds, by rw [← hw1, hwr], ?_, by omega, ?_⟩
        · have : (st : Int) < (remain.toNat : Int) := by
            exact_mod_cast hlt
          rw [Int.toNat_of_nonneg (by omega)] at this
          exact this
        · rw [← hw3, h4]
          simp

/-- C7 witness: a 1-byte transfer into an empty file at offset 0 via a single
successful read: the file ends at least `offset + remain` long and the success
case reports exactly `remain` bytes written as one contiguous block. -/
theorem spec_c7_witness :
    0 + (1 : Int).toNat ≤ [9].length ∧
    ∃ ds : List Nat, ds.length = (1 : Int).toNat ∧
      [9] = writeAt (extendFile [] 0 (1 : Int).toNat) 0 ds := by
  have h := (spec_c7 [] 0 1 [ConnRead.data [9]] (by decide)).2 1 none [9] (by decide)
  exact ⟨h.1, (h.2.1 rfl).2⟩

/-! ## Claim theorems -/

/-- C2: classification of a record read by `ktlsReadDataFromRecord`.  When the
underlying tagged read succeeds (`rerr = none`): an alert record whose second
payload byte is the close-notify code yields `(0, io.EOF)`; an alert with any
other second byte yields the unsupported-alert error; an application-data
record with `n` payload bytes yields `(n, nil)` with the buffer passed through
untouched; any other record type yields the unsupported-record-type error. -/
theorem spec_c2 :
    (∀ (n : Nat) (b : List Nat), 2 ≤ n → b.getD 1 0 = alertCloseNotify →
      ktlsReadDataFromRecord recordTypeAlert n none b = (0, some ReadErr.ioEOF)) ∧
    (∀ (n : Nat) (b : List Nat), 2 ≤ n → b.getD 1 0 ≠ alertCloseNotify →
      ktlsReadDataFromRecord recordTypeAlert n none b =
        (0, some (ReadErr.unsupportedAlert (b.getD 0 0)))) ∧
    (∀ (n : Nat) (b : List Nat),
      ktlsReadDataFromRecord recordTypeApplicationData n none b = (n, none)) ∧
    (∀ (typ n : Nat) (b : List Nat), typ ≠ recordTypeAlert →
      typ ≠ recordTypeApplicationData →
      ktlsReadDataFromRecord typ n none b =
        (0, some (ReadErr.unsupportedRecordType typ))) := by
  refine ⟨?_, ?_, ?_, ?_⟩
  · intro n b hn hb
    have h2 : ¬ n < 2 := by omega
    simp only [List.getD, List.get?_eq_getElem?] at hb
    simp [ktlsReadDataFromRecord, h2, hb]
  · intro n b hn hb
    have h2 : ¬ n < 2 := by omega
    simp only [List.getD, List.get?_eq_getElem?] at hb
    simp [ktlsReadDataFromRecord, h2, hb]
  · intro n b
    simp [ktlsReadDataFromRecord, recordTypeAlert, recordTypeApplicationData]
  · intro typ n b h1 h2
    simp [ktlsReadDataFromRecord, h1, h2]

/-- C2 witness: a concrete alert record `[level, closeNotify]` of length 2 is
reported as clean end-of-stream. -/
theorem spec_c2_witness :
    ktlsReadDataFromRecord recordTypeAlert 2 none [1, 0] = (0, some ReadErr.ioEOF) :=
  spec_c2.1 2 [1, 0] (by decide) (by decide)

/-- C10: an alert record with fewer than 2 payload bytes is reported as the
alert-payload-too-short error, and the result is independent of the buffer
contents, so the second payload byte is never inspected. -/
theorem spec_c10 :
    (∀ (n : Nat) (b : List Nat), n < 2 →
      ktlsReadDataFromRecord recordTypeAlert n none b = (0, some ReadErr.alertTooShort)) ∧
    (∀ (n : Nat) (b b' : List Nat), n < 2 →
      ktlsReadDataFromRecord recordTypeAlert n none b =
        ktlsReadDataFromRecord recordTypeAlert n none b') := by
  constructor
  · intro n b hn
    simp [ktlsReadDataFromRecord, hn]
  · intro n b b' hn
    simp [ktlsReadDataFromRecord, hn]

/-- C10 witness: a 1-byte alert payload gives the too-short error, for any
buffer contents. -/
theorem spec_c10_witness :
    ktlsReadDataFromRecord recordTypeAlert 1 none [99] = (0, some ReadErr.alertTooShort) :=
  spec_c10.1 1 [99] (by decide)

/-- C3: the one-time probe's flag block grants TX and AES-128-GCM exactly at
kernel version 4.13 and above, RX at 4.17, AES-256-GCM and TLS 1.3 TX at 5.1,
ChaCha20-Poly1305 at 5.11, zero-copy at 5.19, and TLS 1.3 RX and no-pad at
major version 6 and above — all inclusive bounds compared on major then
minor. -/
theorem spec_c3 (major minor : Nat) :
    ((capsOfVersion major minor).tx = true ↔ verAtLeast major minor 4 13) ∧
    ((capsOfVersion major minor).aes128 = true ↔ verAtLeast major minor 4 13) ∧
    ((capsOfVersion major minor).rx = true ↔ verAtLeast major minor 4 17) ∧
    ((capsOfVersion major minor).aes256 = true ↔ verAtLeast major minor 5 1) ∧
    ((capsOfVersion major minor).tls13tx = true ↔ verAtLeast major minor 5 1) ∧
    ((capsOfVersion major minor).chacha = true ↔ verAtLeast major minor 5 11) ∧
    ((capsOfVersion major minor).zerocopy = true ↔ verAtLeast major minor 5 19) ∧
    ((capsOfVersion major minor).tls13rx = true ↔ 6 ≤ major) ∧
    ((capsOfVersion major minor).nopad = true ↔ 6 ≤ major) := by
  simp only [capsOfVersion, verAtLeast, decide_eq_true_eq]
  omega

/-- C3 witness: at kernel 5.11 the probe grants ChaCha20-Poly1305. -/
theorem spec_c3_witness : (capsOfVersion 5 11).chacha = true :=
  (spec_c3 5 11).2.2.2.2.2.1.mpr (Or.inr ⟨rfl, le_refl 11⟩)

/-- C9: capability grants are monotonic in the probed kernel version: for
versions ordered strictly by major then minor, every flag granted at the
smaller version is granted at the larger one. -/
theorem spec_c9 (maj1 min1 maj2 min2 : Nat)
    (h : maj1 < maj2 ∨ (maj1 = maj2 ∧ min1 < min2)) :
    capsLE (capsOfVersion maj1 min1) (capsOfVersion maj2 min2) := by
  simp only [capsLE, capsOfVersion, decide_eq_true_eq]
  refine ⟨?_, ?_, ?_, ?_, ?_, ?_, ?_, ?_, ?_⟩ <;> intro h' <;> omega

/-- C9 witness: every capability granted at kernel 4.17 is granted at 5.0. -/
theorem spec_c9_witness : capsLE (capsOfVersion 4 17) (capsOfVersion 5 0) :=
  spec_c9 4 17 5 0 (Or.inl (by decide))

/-- C5 (code bug): with `skip = false` and a failing ULP bind,
`ktlsEnableAES128GCM` proceeds to the cipher `setsockopt` and returns success
(its closure lacks the early `return` its siblings have, so `err0` is
overwritten), whereas `ktlsEnableAES256GCM` and `ktlsEnableCHACHA20POLY1305`
stop after the bind and return the bind failure as the claim requires. -/
theorem spec_c5 :
    ktlsEnableAES128GCM envULPFail VersionTLS12 TLS_TX false (List.replicate 16 0)
        (List.replicate 4 0) (List.replicate 8 0) =
      ⟨none, [SockCall.ulpBind, SockCall.cipherSetsockopt TLS_TX
        (wireAES128 VersionTLS12 (List.replicate 16 0) (List.replicate 4 0)
          (List.replicate 8 0))]⟩ ∧
    ktlsEnableAES256GCM envULPFail VersionTLS12 TLS_TX false (List.replicate 32 0)
        (List.replicate 4 0) (List.replicate 8 0) =
      ⟨some (KtlsErr.sysErr 22), [SockCall.ulpBind]⟩ ∧
    ktlsEnableCHACHA20POLY1305 envULPFail VersionTLS12 TLS_TX false
        (List.replicate 32 0) (List.replicate 12 0) (List.replicate 8 0) =
      ⟨some (KtlsErr.sysErr 22), [SockCall.ulpBind]⟩ := by
  refine ⟨?_, ?_, ?_⟩ <;> decide

/-- C6 (code bug): `unix.Splice` returns `n = -1` on `EAGAIN` and the loop
adjusts `remain`/`written` before checking for `EAGAIN`, so a chunked,
would-block-interrupted delivery of the stream does not behave like an
uninterrupted one.  Concretely, for a 1-byte stream: the uninterrupted run
returns `(1, [42])`; the run whose single chunk is preceded by one would-block
never reaches `remain ≤ 0` and blocks forever (`none`); if a hard error
follows instead, the loop exits reporting `written = -1` even though the whole
stream already reached the file.  The short-write retry of the file-ward
splice itself does work: with a 1-byte cap schedule a 2-byte chunk still
lands in full. -/
theorem spec_c6 :
    spliceRun 10 1 [42] [] [] [] [] 0 = some (1, [42], none) ∧
    spliceRun 10 1 [] [SpliceEv.arrive [42]] [] [] [] 0 = none ∧
    spliceRun 10 1 [] [SpliceEv.arrive [42], SpliceEv.fail 104] [] [] [] 0 =
      some (-1, [42], some 104) ∧
    spliceRun 10 2 [7, 8] [] [1] [] [] 0 = some (2, [7, 8], none) := by
  refine ⟨?_, ?_, ?_, ?_⟩ <;> decide

/-- C8 counterexample: the cipher-suite switch of `enableKernelTLS` recognizes
11 distinct identifier values, not 9: the 11 listed suites are pairwise
distinct and, with full capabilities, none of them falls through to the
immediate-success path. -/
theorem spec_c8_cex :
    recognizedSuites.Nodup ∧ recognizedSuites.length = 11 ∧
    ∀ id ∈ recognizedSuites, enableKernelTLS true capsAll id ≠ ActivationAction.noop := by
  refine ⟨by decide, by decide, by decide⟩

/-- C8 (amended): the switch recognizes exactly the 11 pairwise-distinct
cipher-suite identifiers of `recognizedSuites` (not 9 as claimed); every
identifier outside that list makes `enableKernelTLS` return success
immediately without attempting any offload configuration, for every capability
table and support gate value. -/
theorem spec_c8 :
    (recognizedSuites.Nodup ∧ recognizedSuites.length = 11) ∧
    (∀ (support : Bool) (caps : KTLSCaps) (id : Nat), id ∉ recognizedSuites →
      enableKernelTLS support caps id = ActivationAction.noop) ∧
    (∀ id ∈ recognizedSuites, enableKernelTLS true capsAll id ≠ ActivationAction.noop) := by
  refine ⟨⟨by decide, by decide⟩, ?_, by decide⟩
  intro support caps id h
  simp only [recognizedSuites, TLS_ECDHE_RSA_WITH_AES_128_GCM_SHA256,
    TLS_ECDHE_ECDSA_WITH_AES_128_GCM_SHA256, TLS_RSA_WITH_AES_128_GCM_SHA256,
    TLS_ECDHE_RSA_WITH_AES_256_GCM_SHA384, TLS_ECDHE_ECDSA_WITH_AES_256_GCM_SHA384,
    TLS_RSA_WITH_AES_256_GCM_SHA384, TLS_ECDHE_RSA_WITH_CHACHA20_POLY1305_SHA256,
    TLS_ECDHE_ECDSA_WITH_CHACHA20_POLY1305_SHA256, TLS_AES_128_GCM_SHA256,
    TLS_AES_256_GCM_SHA384, TLS_CHACHA20_POLY1305_SHA256,
    List.mem_cons, List.not_mem_nil, or_false, not_or] at h
  obtain ⟨h1, h2, h3, h4, h5, h6, h7, h8, h9, h10, h11⟩ := h
  cases support with
  | false => simp [enableKernelTLS]
  | true =>
    simp [enableKernelTLS, TLS_ECDHE_RSA_WITH_AES_128_GCM_SHA256,
      TLS_ECDHE_ECDSA_WITH_AES_128_GCM_SHA256, TLS_RSA_WITH_AES_128_GCM_SHA256,
      TLS_ECDHE_RSA_WITH_AES_256_GCM_SHA384, TLS_ECDHE_ECDSA_WITH_AES_256_GCM_SHA384,
      TLS_RSA_WITH_AES_256_GCM_SHA384, TLS_ECDHE_RSA_WITH_CHACHA20_POLY1305_SHA256,
      TLS_ECDHE_ECDSA_WITH_CHACHA20_POLY1305_SHA256, TLS_AES_128_GCM_SHA256,
      TLS_AES_256_GCM_SHA384, TLS_CHACHA20_POLY1305_SHA256,
      h1, h2, h3, h4, h5, h6, h7, h8, h9, h10, h11]

/-- C8 witness: the unrecognized identifier 0 yields an immediate success with
no configuration attempted, for an arbitrary capability table. -/
theorem spec_c8_witness : enableKernelTLS true capsAll 0 = ActivationAction.noop :=
  spec_c8.2.1 true capsAll 0 (by decide)

/-- C1: for each cipher family, an enable call with key/IV/sequence of exactly
the profile's required lengths (the IV requirement depending on the protocol
version as in the source) issues the cipher `setsockopt` with a wire blob
whose length is the closed-form `2+2+IV+KEY+SALT+REC_SEQ` size, while a key,
IV or sequence of any other length (in particular one byte short or long) is
rejected with the corresponding length error and an empty system-call trace:
neither the ULP bind nor the cipher `setsockopt` is attempted. -/
theorem spec_c1 :
    (∀ (env : SockEnv) (version opt : Nat) (skip : Bool) (key iv seq : List Nat),
      env.syscallConnErr = none → env.ulpBindErr = none →
      key.length = kTLS_CIPHER_AES_GCM_128_KEY_SIZE →
      iv.length = (if version = VersionTLS12 then kTLS_CIPHER_AES_GCM_128_SALT_SIZE
        else kTLS_CIPHER_AES_GCM_128_SALT_SIZE + kTLS_CIPHER_AES_GCM_128_IV_SIZE) →
      seq.length = kTLS_CIPHER_AES_GCM_128_REC_SEQ_SIZE →
      ktlsEnableAES128GCM env version opt skip key iv seq =
        ⟨Option.map KtlsErr.sysErr env.cipherSetsockoptErr,
          (if skip then [] else [SockCall.ulpBind]) ++
            [SockCall.cipherSetsockopt opt (wireAES128 version key iv seq)]⟩ ∧
      (wireAES128 version key iv seq).length = kTLSCryptoInfoSize_AES_GCM_128) ∧
    (∀ (env : SockEnv) (version opt : Nat) (skip : Bool) (key iv seq : List Nat),
      key.length ≠ kTLS_CIPHER_AES_GCM_128_KEY_SIZE →
      ktlsEnableAES128GCM env version opt skip key iv seq =
        ⟨some (KtlsErr.wrongKeyLength kTLS_CIPHER_AES_GCM_128_KEY_SIZE key.length), []⟩) ∧
    (∀ (env : SockEnv) (version opt : Nat) (skip : Bool) (key iv seq : List Nat),
      key.length = kTLS_CIPHER_AES_GCM_128_KEY_SIZE →
      iv.length ≠ (if version = VersionTLS12 then kTLS_CIPHER_AES_GCM_128_SALT_SIZE
        else kTLS_CIPHER_AES_GCM_128_SALT_SIZE + kTLS_CIPHER_AES_GCM_128_IV_SIZE) →
      ktlsEnableAES128GCM env version opt skip key iv seq =
        ⟨some (KtlsErr.wrongIVLength
          (if version = VersionTLS12 then kTLS_CIPHER_AES_GCM_128_SALT_SIZE
            else kTLS_CIPHER_AES_GCM_128_SALT_SIZE + kTLS_CIPHER_AES_GCM_128_IV_SIZE)
          iv.length), []⟩) ∧
    (∀ (env : SockEnv) (version opt : Nat) (skip : Bool) (key iv seq : List Nat),
      key.length = kTLS_CIPHER_AES_GCM_128_KEY_SIZE →
      iv.length = (if version = VersionTLS12 then kTLS_CIPHER_AES_GCM_128_SALT_SIZE
        else kTLS_CIPHER_AES_GCM_128_SALT_SIZE + kTLS_CIPHER_AES_GCM_128_IV_SIZE) →
      seq.length ≠ kTLS_CIPHER_AES_GCM_128_REC_SEQ_SIZE →
      ktlsEnableAES128GCM env version opt skip key iv seq =
        ⟨some (KtlsErr.wrongSeqLength kTLS_CIPHER_AES_GCM_128_REC_SEQ_SIZE seq.length), []⟩) ∧
    (∀ (env : SockEnv) (version opt : Nat) (skip : Bool) (key iv seq : List Nat),
      env.syscallConnErr = none → env.ulpBindErr = none →
      key.length = kTLS_CIPHER_AES_GCM_256_KEY_SIZE →
      iv.length = (if version = VersionTLS12 then kTLS_CIPHER_AES_GCM_256_SALT_SIZE
        else kTLS_CIPHER_AES_GCM_256_SALT_SIZE + kTLS_CIPHER_AES_GCM_256_IV_SIZE) →
      seq.length = kTLS_CIPHER_AES_GCM_256_REC_SEQ_SIZE →
      ktlsEnableAES256GCM env version opt skip key iv seq =
        ⟨Option.map KtlsErr.sysErr env.cipherSetsockoptErr,
          (if skip then [] else [SockCall.ulpBind]) ++
            [SockCall.cipherSetsockopt opt (wireAES256 version key iv seq)]⟩ ∧
      (wireAES256 version key iv seq).length = kTLSCryptoInfoSize_AES_GCM_256) ∧
    (∀ (env : SockEnv) (version opt : Nat) (skip : Bool) (key iv seq : List Nat),
      key.length ≠ kTLS_CIPHER_AES_GCM_256_KEY_SIZE →
      ktlsEnableAES256GCM env version opt skip key iv seq =
        ⟨some (KtlsErr.wrongKeyLength kTLS_CIPHER_AES_GCM_256_KEY_SIZE key.length), []⟩) ∧
    (∀ (env : SockEnv) (version opt : Nat) (skip : Bool) (key iv seq : List Nat),
      key.length = kTLS_CIPHER_AES_GCM_256_KEY_SIZE →
      iv.length ≠ (if version = VersionTLS12 then kTLS_CIPHER_AES_GCM_256_SALT_SIZE
        else kTLS_CIPHER_AES_GCM_256_SALT_SIZE + kTLS_CIPHER_AES_GCM_256_IV_SIZE) →
      ktlsEnableAES256GCM env version opt skip key iv seq =
        ⟨some (KtlsErr.wrongIVLength
          (if version = VersionTLS12 then kTLS_CIPHER_AES_GCM_256_SALT_SIZE
            else kTLS_CIPHER_AES_GCM_256_SALT_SIZE + kTLS_CIPHER_AES_GCM_256_IV_SIZE)
          iv.length), []⟩) ∧
    (∀ (env : SockEnv) (version opt : Nat) (skip : Bool) (key iv seq : List Nat),
      key.length = kTLS_CIPHER_AES_GCM_256_KEY_SIZE →
      iv.length = (if version = VersionTLS12 then kTLS_CIPHER_AES_GCM_256_SALT_SIZE
        else kTLS_CIPHER_AES_GCM_256_SALT_SIZE + kTLS_CIPHER_AES_GCM_256_IV_SIZE) →
      seq.length ≠ kTLS_CIPHER_AES_GCM_256_REC_SEQ_SIZE →
      ktlsEnableAES256GCM env version opt skip key iv seq =
        ⟨some (KtlsErr.wrongSeqLength kTLS_CIPHER_AES_GCM_256_REC_SEQ_SIZE seq.length), []⟩) ∧
    (∀ (env : SockEnv) (version opt : Nat) (skip : Bool) (key iv seq : List Nat),
      env.syscallConnErr = none → env.ulpBindErr = none →
      key.length = kTLS_CIPHER_CHACHA20_POLY1305_KEY_SIZE →
      iv.length = kTLS_CIPHER_CHACHA20_POLY1305_IV_SIZE →
      seq.length = kTLS_CIPHER_CHACHA20_POLY1305_REC_SEQ_SIZE →
      ktlsEnableCHACHA20POLY1305 env version opt skip key iv seq =
        ⟨Option.map KtlsErr.sysErr env.cipherSetsockoptErr,
          (if skip then [] else [SockCall.ulpBind]) ++
            [SockCall.cipherSetsockopt opt (wireCHACHA20 version key iv seq)]⟩ ∧
      (wireCHACHA20 version key iv seq).length = kTLSCryptoInfoSize_CHACHA20_POLY1305) ∧
    (∀ (env : SockEnv) (version opt : Nat) (skip : Bool) (key iv seq : List Nat),
      key.length ≠ kTLS_CIPHER_CHACHA20_POLY1305_KEY_SIZE →
      ktlsEnableCHACHA20POLY1305 env version opt skip key iv seq =
        ⟨some (KtlsErr.wrongKeyLength kTLS_CIPHER_CHACHA20_POLY1305_KEY_SIZE key.length),
          []⟩) ∧
    (∀ (env : SockEnv) (version opt : Nat) (skip : Bool) (key iv seq : List Nat),
      key.length = kTLS_CIPHER_CHACHA20_POLY1305_KEY_SIZE →
      iv.length ≠ kTLS_CIPHER_CHACHA20_POLY1305_IV_SIZE →
      ktlsEnableCHACHA20POLY1305 env version opt skip key iv seq =
        ⟨some (KtlsErr.wrongIVLength kTLS_CIPHER_CHACHA20_POLY1305_IV_SIZE iv.length), []⟩) ∧
    (∀ (env : SockEnv) (version opt : Nat) (skip : Bool) (key iv seq : List Nat),
      key.length = kTLS_CIPHER_CHACHA20_POLY1305_KEY_SIZE →
      iv.length = kTLS_CIPHER_CHACHA20_POLY1305_IV_SIZE →
      seq.length ≠ kTLS_CIPHER_CHACHA20_POLY1305_REC_SEQ_SIZE →
      ktlsEnableCHACHA20POLY1305 env version opt skip key iv seq =
        ⟨some (KtlsErr.wrongSeqLength kTLS_CIPHER_CHACHA20_POLY1305_REC_SEQ_SIZE
          seq.length), []⟩) := by
  refine ⟨?_, ?_, ?_, ?_, ?_, ?_, ?_, ?_, ?_, ?_, ?_, ?_⟩
  · intro env version opt skip key iv seq hc hu hk hiv hs
    refine ⟨?_, wireAES128_length version key iv seq⟩
    by_cases hv : version = VersionTLS12
    · rw [if_pos hv] at hiv
      cases skip <;>
        simp [ktlsEnableAES128GCM, ktlsApplyAES128GCM, hv, hk, hiv, hs, hc,
          wireAES128_length]
    · rw [if_neg hv] at hiv
      cases skip <;>
        simp [ktlsEnableAES128GCM, ktlsApplyAES128GCM, hv, hk, hiv, hs, hc,
          wireAES128_length]
  · intro env version opt skip key iv seq hk
    simp [ktlsEnableAES128GCM, hk]
  · intro env version opt skip key iv seq hk hiv
    by_cases hv : version = VersionTLS12
    · rw [if_pos hv] at hiv
      simp [ktlsEnableAES128GCM, hv, hk, hiv]
    · rw [if_neg hv] at hiv
      simp [ktlsEnableAES128GCM, hv, hk, hiv]
  · intro env version opt skip key iv seq hk hiv hs
    by_cases hv : version = VersionTLS12
    · rw [if_pos hv] at hiv
      simp [ktlsEnableAES128GCM, hv, hk, hiv, hs]
    · rw [if_neg hv] at hiv
      simp [ktlsEnableAES128GCM, hv, hk, hiv, hs]
  · intro env version opt skip key iv seq hc hu hk hiv hs
    refine ⟨?_, wireAES256_length version key iv seq⟩
    by_cases hv : version = VersionTLS12
    · rw [if_pos hv] at hiv
      cases skip <;>
        simp [ktlsEnableAES256GCM, ktlsApplyAES256GCM, hv, hk, hiv, hs, hc, hu,
          wireAES256_length]
    · rw [if_neg hv] at hiv
      cases skip <;>
        simp [ktlsEnableAES256GCM, ktlsApplyAES256GCM, hv, hk, hiv, hs, hc, hu,
          wireAES256_length]
  · intro env version opt skip key iv seq hk
    simp [ktlsEnableAES256GCM, hk]
  · intro env version opt skip key iv seq hk hiv
    by_cases hv : version = VersionTLS12
    · rw [if_pos hv] at hiv
      simp [ktlsEnableAES256GCM, hv, hk, hiv]
    · rw [if_neg hv] at hiv
      simp [ktlsEnableAES256GCM, hv, hk, hiv]
  · intro env version opt skip key iv seq hk hiv hs
    by_cases hv : version = VersionTLS12
    · rw [if_pos hv] at hiv
      simp [ktlsEnableAES256GCM, hv, hk, hiv, hs]
    · rw [if_neg hv] at hiv
      simp [ktlsEnableAES256GCM, hv, hk, hiv, hs]
  · intro env version opt skip key iv seq hc hu hk hiv hs
    refine ⟨?_, wireCHACHA20_length version key iv seq⟩
    cases skip <;>
      simp [ktlsEnableCHACHA20POLY1305, ktlsApplyCHACHA20POLY1305, hk, hiv, hs, hc, hu,
        wireCHACHA20_length]
  · intro env version opt skip key iv seq hk
    simp [ktlsEnableCHACHA20POLY1305, hk]
  · intro env version opt skip key iv seq hk hiv
    simp [ktlsEnableCHACHA20POLY1305, hk, hiv]
  · intro env version opt skip key iv seq hk hiv hs
    simp [ktlsEnableCHACHA20POLY1305, hk, hiv, hs]

/-- C4 counterexample: at protocol version 1.2 the ChaCha20-Poly1305 enable
function does NOT accept an IV of exactly the family's salt size (0 bytes);
it rejects the empty IV with the 12-byte IV-length error, because its IV
check is the same single 12-byte comparison for both protocol versions. -/
theorem spec_c4_cex :
    (ktlsEnableCHACHA20POLY1305 envNone VersionTLS12 TLS_TX false
        (List.replicate 32 0) [] (List.replicate 8 0)).err =
      some (KtlsErr.wrongIVLength 12 0) := by decide

/-- C4 (amended): for the AES-GCM families the claim holds: with a valid key,
version 1.2 accepts an IV of exactly the salt size and version 1.3 exactly
salt size + IV size (so the accepted lengths differ by exactly the IV-size
field), and when the 1.2 IV is the salt prefix of the 1.3 IV the salt field of
the two wire blobs is byte-identical.  ChaCha20-Poly1305, however, performs a
single IV-length check of exactly its IV size (12 bytes) at both protocol
versions, so its two accepted lengths are equal rather than differing by the
IV size (its salt is empty). -/
theorem spec_c4 :
    (∀ (env : SockEnv) (opt : Nat) (skip : Bool) (key iv seq : List Nat),
      key.length = kTLS_CIPHER_AES_GCM_128_KEY_SIZE →
      ((ktlsEnableAES128GCM env VersionTLS12 opt skip key iv seq).err =
          some (KtlsErr.wrongIVLength kTLS_CIPHER_AES_GCM_128_SALT_SIZE iv.length) ↔
        iv.length ≠ kTLS_CIPHER_AES_GCM_128_SALT_SIZE)) ∧
    (∀ (env : SockEnv) (opt : Nat) (skip : Bool) (key iv seq : List Nat),
      key.length = kTLS_CIPHER_AES_GCM_128_KEY_SIZE →
      ((ktlsEnableAES128GCM env VersionTLS13 opt skip key iv seq).err =
          some (KtlsErr.wrongIVLength
            (kTLS_CIPHER_AES_GCM_128_SALT_SIZE + kTLS_CIPHER_AES_GCM_128_IV_SIZE)
            iv.length) ↔
        iv.length ≠ kTLS_CIPHER_AES_GCM_128_SALT_SIZE + kTLS_CIPHER_AES_GCM_128_IV_SIZE)) ∧
    (∀ (env : SockEnv) (opt : Nat) (skip : Bool) (key iv seq : List Nat),
      key.length = kTLS_CIPHER_AES_GCM_256_KEY_SIZE →
      ((ktlsEnableAES256GCM env VersionTLS12 opt skip key iv seq).err =
          some (KtlsErr.wrongIVLength kTLS_CIPHER_AES_GCM_256_SALT_SIZE iv.length) ↔
        iv.length ≠ kTLS_CIPHER_AES_GCM_256_SALT_SIZE)) ∧
    (∀ (env : SockEnv) (opt : Nat) (skip : Bool) (key iv seq : List Nat),
      key.length = kTLS_CIPHER_AES_GCM_256_KEY_SIZE →
      ((ktlsEnableAES256GCM env VersionTLS13 opt skip key iv seq).err =
          some (KtlsErr.wrongIVLength
            (kTLS_CIPHER_AES_GCM_256_SALT_SIZE + kTLS_CIPHER_AES_GCM_256_IV_SIZE)
            iv.length) ↔
        iv.length ≠ kTLS_CIPHER_AES_GCM_256_SALT_SIZE + kTLS_CIPHER_AES_GCM_256_IV_SIZE)) ∧
    (∀ (env : SockEnv) (version opt : Nat) (skip : Bool) (key iv seq : List Nat),
      key.length = kTLS_CIPHER_CHACHA20_POLY1305_KEY_SIZE →
      ((ktlsEnableCHACHA20POLY1305 env version opt skip key iv seq).err =
          some (KtlsErr.wrongIVLength kTLS_CIPHER_CHACHA20_POLY1305_IV_SIZE iv.length) ↔
        iv.length ≠ kTLS_CIPHER_CHACHA20_POLY1305_IV_SIZE)) ∧
    (∀ (key iv12 iv13 seq : List Nat),
      iv12 = iv13.take kTLS_CIPHER_AES_GCM_128_SALT_SIZE →
      ((wireAES128 VersionTLS12 key iv12 seq).drop 28).take 4 =
        ((wireAES128 VersionTLS13 key iv13 seq).drop 28).take 4) ∧
    (∀ (key iv12 iv13 seq : List Nat),
      iv12 = iv13.take kTLS_CIPHER_AES_GCM_256_SALT_SIZE →
      ((wireAES256 VersionTLS12 key iv12 seq).drop 44).take 4 =
        ((wireAES256 VersionTLS13 key iv13 seq).drop 44).take 4) := by
  refine ⟨?_, ?_, ?_, ?_, ?_, ?_, ?_⟩
  · intro env opt skip key iv seq hk
    by_cases hlen : iv.length = kTLS_CIPHER_AES_GCM_128_SALT_SIZE
    · simp only [hlen, ne_eq, not_true_eq_false, iff_false]
      by_cases hs : seq.length = kTLS_CIPHER_AES_GCM_128_REC_SEQ_SIZE
      · obtain ⟨sc, ub, ce⟩ := env
        cases sc <;> cases skip <;> cases ce <;>
          simp [ktlsEnableAES128GCM, ktlsApplyAES128GCM, hk, hlen, hs, wireAES128_length]
      · simp [ktlsEnableAES128GCM, hk, hlen, hs]
    · simp [ktlsEnableAES128GCM, hk, hlen]
  · intro env opt skip key iv seq hk
    by_cases hlen : iv.length =
        kTLS_CIPHER_AES_GCM_128_SALT_SIZE + kTLS_CIPHER_AES_GCM_128_IV_SIZE
    · simp only [hlen, ne_eq, not_true_eq_false, iff_false]
      by_cases hs : seq.length = kTLS_CIPHER_AES_GCM_128_REC_SEQ_SIZE
      · obtain ⟨sc, ub, ce⟩ := env
        cases sc <;> cases skip <;> cases ce <;>
          simp [ktlsEnableAES128GCM, ktlsApplyAES128GCM, VersionTLS12, VersionTLS13,
            hk, hlen, hs, wireAES128_length]
      · simp [ktlsEnableAES128GCM, VersionTLS12, VersionTLS13, hk, hlen, hs]
    · simp [ktlsEnableAES128GCM, VersionTLS12, VersionTLS13, hk, hlen]
  · intro env opt skip key iv seq hk
    by_cases hlen : iv.length = kTLS_CIPHER_AES_GCM_256_SALT_SIZE
    · simp only [hlen, ne_eq, not_true_eq_false, iff_false]
      by_cases hs : seq.length = kTLS_CIPHER_AES_GCM_256_REC_SEQ_SIZE
      · obtain ⟨sc, ub, ce⟩ := env
        cases sc <;> cases skip <;> cases ub <;> cases ce <;>
          simp [ktlsEnableAES256GCM, ktlsApplyAES256GCM, hk, hlen, hs, wireAES256_length]
      · simp [ktlsEnableAES256GCM, hk, hlen, hs]
    · simp [ktlsEnableAES256GCM, hk, hlen]
  · intro env opt skip key iv seq hk
    by_cases hlen : iv.length =
        kTLS_CIPHER_AES_GCM_256_SALT_SIZE + kTLS_CIPHER_AES_GCM_256_IV_SIZE
    · simp only [hlen, ne_eq, not_true_eq_false, iff_false]
      by_cases hs : seq.length = kTLS_CIPHER_AES_GCM_256_REC_SEQ_SIZE
      · obtain ⟨sc, ub, ce⟩ := env
        cases sc <;> cases skip <;> cases ub <;> cases ce <;>
          simp [ktlsEnableAES256GCM, ktlsApplyAES256GCM, VersionTLS12, VersionTLS13,
            hk, hlen, hs, wireAES256_length]
      · simp [ktlsEnableAES256GCM, VersionTLS12, VersionTLS13, hk, hlen, hs]
    · simp [ktlsEnableAES256GCM, VersionTLS12, VersionTLS13, hk, hlen]
  · intro env version opt skip key iv seq hk
    by_cases hlen : iv.length = kTLS_CIPHER_CHACHA20_POLY1305_IV_SIZE
    · simp only [hlen, ne_eq, not_true_eq_false, iff_false]
      by_cases hs : seq.length = kTLS_CIPHER_CHACHA20_POLY1305_REC_SEQ_SIZE
      · obtain ⟨sc, ub, ce⟩ := env
        cases sc <;> cases skip <;> cases ub <;> cases ce <;>
          simp [ktlsEnableCHACHA20POLY1305, ktlsApplyCHACHA20POLY1305, hk, hlen, hs,
            wireCHACHA20_length]
      · simp [ktlsEnableCHACHA20POLY1305, hk, hlen, hs]
    · simp [ktlsEnableCHACHA20POLY1305, hk, hlen]
  · intro key iv12 iv13 seq h
    rw [wireAES128_salt, wireAES128_salt, h]
    simp [List.take_take, kTLS_CIPHER_AES_GCM_128_SALT_SIZE]
  · intro key iv12 iv13 seq h
    rw [wireAES256_salt, wireAES256_salt, h]
    simp [List.take_take, kTLS_CIPHER_AES_GCM_256_SALT_SIZE]

/-- C4 witness: AES-128-GCM at version 1.2 rejects a 5-byte IV with the
salt-size length error, and the 1.2/1.3 salt fields agree on a concrete
salt-prefix pair. -/
theorem spec_c4_witness :
    ((ktlsEnableAES128GCM envNone VersionTLS12 TLS_TX false (List.replicate 16 0)
        (List.replicate 5 0) (List.replicate 8 0)).err =
      some (KtlsErr.wrongIVLength kTLS_CIPHER_AES_GCM_128_SALT_SIZE
        (List.replicate 5 (0 : Nat)).length)) ∧
    ((wireAES128 VersionTLS12 (List.replicate 16 7) ((List.replicate 12 9).take 4)
        (List.replicate 8 5)).drop 28).take 4 =
      ((wireAES128 VersionTLS13 (List.replicate 16 7) (List.replicate 12 9)
        (List.replicate 8 5)).drop 28).take 4 := by
  constructor
  · exact (spec_c4.1 envNone TLS_TX false (List.replicate 16 0) (List.replicate 5 0)
      (List.replicate 8 0) (by decide)).mpr (by decide)
  · exact spec_c4.2.2.2.2.2.1 (List.replicate 16 7) ((List.replicate 12 9).take 4)
      (List.replicate 12 9) (List.replicate 8 5) rfl

/-- C1 witness: for AES-128-GCM at TLS 1.3, exact 16/12/8-byte parameters
issue the cipher `setsockopt` with a 40-byte blob, and a 15-byte key is
rejected with the key-length error and no system call. -/
theorem spec_c1_witness :
    ktlsEnableAES128GCM envNone VersionTLS13 TLS_TX false (List.replicate 16 1)
        (List.replicate 12 2) (List.replicate 8 3) =
      ⟨none, [SockCall.ulpBind, SockCall.cipherSetsockopt TLS_TX
        (wireAES128 VersionTLS13 (List.replicate 16 1) (List.replicate 12 2)
          (List.replicate 8 3))]⟩ ∧
    (wireAES128 VersionTLS13 (List.replicate 16 1) (List.replicate 12 2)
      (List.replicate 8 3)).length = kTLSCryptoInfoSize_AES_GCM_128 ∧
    ktlsEnableAES128GCM envNone VersionTLS13 TLS_TX false (List.replicate 15 1)
        (List.replicate 12 2) (List.replicate 8 3) =
      ⟨some (KtlsErr.wrongKeyLength kTLS_CIPHER_AES_GCM_128_KEY_SIZE
        (List.replicate 15 (1 : Nat)).length), []⟩ := by
  have h := spec_c1.1 envNone VersionTLS13 TLS_TX false (List.replicate 16 1)
    (List.replicate 12 2) (List.replicate 8 3) rfl rfl (by decide) (by decide) (by decide)
  have h2 := spec_c1.2.1 envNone VersionTLS13 TLS_TX false (List.replicate 15 1)
    (List.replicate 12 2) (List.replicate 8 3) (by decide)
  exact ⟨h.1, h.2, h2⟩

end GoKtls
